import Mathlib

/-!
Verification of the path-resolution, remote-fetch fallback and single-slot
cache logic of the ComfyUI-S3-Utils plugin (`s3_utils.py`, `s3_manager.py`),
as a shallow embedding in Lean 4.

Modelling conventions:
* Python exceptions are the `PyExc` type; fallible functions return
  `Except PyExc α`.
* The process environment (the externally configured folder map, the legacy
  name mapping, and the filesystem predicates `os.path.isfile` /
  `os.path.islink`) is the `Env` structure; filesystem state is a snapshot,
  queried through boolean predicates exactly where the source queries it.
* To express claims about which external operations are performed, the
  resolver also returns the list of filesystem probes it issued (`Probe`)
  and the orchestrator the list of fetch calls (`FetchCall`) it made.  Each
  `os.path.isfile` / `os.path.islink` / `get_lora_from_s3` call site in the
  source emits exactly one event.
-/

deriving instance DecidableEq for Except

/-- The Python exceptions raised by the embedded code. -/
inductive PyExc where
  /-- `ValueError` from `ensure_path_safety` (spec: InvalidPath). -/
  | invalidPath (path : String)
  /-- `FileNotFoundError` from the category lookup (spec: CategoryNotFound). -/
  | categoryNotFound (folder : String)
  /-- `FileNotFoundError` from `get_full_path_or_raise` (spec: FetchFailed). -/
  | fetchFailed (bucket key : String)
  /-- `RuntimeError` from `get_full_path_simulate` (spec: ShouldNotHappen). -/
  | shouldNotHappen (path : String)
  /-- `AttributeError`, e.g. calling a method on `None`. -/
  | attributeError (msg : String)
  /-- `IndexError`, e.g. `folders[0][0]` on an empty list. -/
  | indexError
  /-- Any error raised by the object-store client during a transfer. -/
  | clientError (msg : String)
deriving DecidableEq, Repr

/-- Python's substring test `sub in s` (`".." in path`, `"~" in path`),
on the character lists of the two strings. -/
def hasSubstr (sub : List Char) : List Char → Bool
  | [] => sub.isEmpty
  | c :: rest => sub.isPrefixOf (c :: rest) || hasSubstr sub rest

theorem hasSubstr_correct (sub : List Char) :
    ∀ s : List Char, hasSubstr sub s = true ↔ sub <:+: s := by
  intro s
  induction s with
  | nil =>
    simp [hasSubstr, List.isEmpty_iff, List.infix_nil]
  | cons c rest ih =>
    simp [hasSubstr, List.infix_cons_iff, ih, List.isPrefixOf_iff_prefix]

/-- `ensure_path_safety` (s3_utils.py lines 90-94): raises `ValueError`
when the path contains `..` or `~`, otherwise returns the path unchanged. -/
def ensure_path_safety (path : String) : Except PyExc String :=
  if hasSubstr ['.', '.'] path.data || hasSubstr ['~'] path.data then
    .error (.invalidPath path)
  else
    .ok path

/-- `os.path.join(a, b)` for POSIX paths, two arguments: an absolute `b`
replaces `a`; otherwise `b` is appended to `a` with a separator inserted
unless `a` is empty or already ends in one. -/
def pathJoin (a b : String) : String :=
  if b.data.head? = some '/' then b
  else if a.data.isEmpty then b
  else if a.data.getLast? = some '/' then ⟨a.data ++ b.data⟩
  else ⟨a.data ++ ('/' :: b.data)⟩

/-- Split a character list on `/`. -/
def splitOnSlash : List Char → List (List Char)
  | [] => [[]]
  | c :: rest =>
    if c = '/' then [] :: splitOnSlash rest
    else
      match splitOnSlash rest with
      | [] => [[c]]
      | g :: gs => (c :: g) :: gs

/-- Join path components with `/`. -/
def joinSlash : List (List Char) → List Char
  | [] => []
  | [g] => g
  | g :: gs => g ++ '/' :: joinSlash gs

/-- `os.path.relpath(os.path.join("/", filename), "/")` (s3_utils.py line
66): re-roots the filename at `/` and takes the relative form, which for
inputs free of `..` components (guaranteed here, since the caller applies
`ensure_path_safety` first) amounts to dropping empty and `.` components;
an empty result is `os.curdir`, i.e. `"."`. -/
def normRel (filename : String) : String :=
  let comps := (splitOnSlash filename.data).filter (fun c => c ≠ [] && c ≠ ['.'])
  if comps.isEmpty then "." else ⟨joinSlash comps⟩

/-- The external environment read by `get_full_path_simulate`:
the configured search-folder map and legacy-name map of `folder_paths`,
and a snapshot of the filesystem predicates the source queries.
`path_exists` models `os.path.exists`; the source never calls it, but the
specification's existence talk is stated through it, tied to `isfile` by
explicit coherence hypotheses where a claim needs them. -/
structure Env where
  folder_names_and_paths : String → Option (List String)
  map_legacy : String → String
  isfile : String → Bool
  islink : String → Bool
  path_exists : String → Bool

/-- Filesystem probes issued by the resolver, one per `os.path.isfile` /
`os.path.islink` call in the source. -/
inductive Probe where
  | isfileQ (path : String)
  | islinkQ (path : String)
deriving DecidableEq, Repr

/-- The search loop of `get_full_path_simulate` (s3_utils.py lines 67-72):
for each configured folder in order, probe `isfile(join(folder, filename))`
and return the first hit; on a miss additionally probe `islink` (the source
only logs a warning there, the loop continues either way). -/
def searchFolders (env : Env) (filename : String) :
    List String → Option String × List Probe
  | [] => (none, [])
  | x :: rest =>
    let full_path := pathJoin x filename
    if env.isfile full_path then
      (some full_path, [.isfileQ full_path])
    else
      let (r, ps) := searchFolders env filename rest
      (r, .isfileQ full_path :: .islinkQ full_path :: ps)

/-- `get_full_path_simulate` (s3_utils.py lines 54-77): validate both
inputs, map the legacy folder name, look the category up, normalize the
filename, scan the folders in order, and otherwise fall back to the first
folder, raising `RuntimeError` if the fallback passes a final `isfile`
check despite the scan having missed.  Returns the result together with the
list of filesystem probes performed. -/
def get_full_path_simulate (env : Env) (folder_name filename : String) :
    Except PyExc (String × Bool) × List Probe :=
  match ensure_path_safety folder_name with
  | .error e => (.error e, [])
  | .ok folder_name₀ =>
    match ensure_path_safety filename with
    | .error e => (.error e, [])
    | .ok filename₀ =>
      let folder_name₁ := env.map_legacy folder_name₀
      match env.folder_names_and_paths folder_name₁ with
      | none => (.error (.categoryNotFound folder_name₁), [])
      | some folders =>
        let filename₁ := normRel filename₀
        match searchFolders env filename₁ folders with
        | (some p, ps) => (.ok (p, true), ps)
        | (none, ps) =>
          match folders with
          | [] => (.error .indexError, ps)
          | d :: _ =>
            let full_path := pathJoin d filename₁
            if env.isfile full_path then
              (.error (.shouldNotHappen full_path), ps ++ [.isfileQ full_path])
            else
              (.ok (full_path, false), ps ++ [.isfileQ full_path])

/-- The object-store client surface used by `get_lora_from_s3`
(`head_object` returning the content length, and `download_file`), each
call possibly raising. -/
structure S3Client where
  head_object : String → String → Except PyExc Nat
  download_file : String → String → String → Except PyExc Unit

/-- s3_utils.py line 15: after `from .s3_manager import s3_client`, the
module rebinds `s3_client: boto3.client = None`, so the client seen by
every function in the module is `None`. -/
def s3_client : Option S3Client := none

/-- The body of the `try` block of `get_lora_from_s3` (s3_utils.py lines
36-49): a `head_object` metadata query (an `AttributeError` when the
client is `None`), then the chunked `download_file` transfer. -/
def get_lora_attempt (client : Option S3Client)
    (bucket_name object_key save_path : String) : Except PyExc Unit :=
  match client with
  | none => .error (.attributeError "NoneType object has no attribute head_object")
  | some c => do
    let _file_size ← c.head_object bucket_name object_key
    c.download_file bucket_name object_key save_path

/-- `get_lora_from_s3` (s3_utils.py lines 34-52): runs the transfer body
under `try`; returns `True` when it completes and, on `except Exception`,
logs the error and returns `False`.  In the embedding the catch-all is the
`.error` branch being mapped to `.ok false`, so the function itself never
raises. -/
def get_lora_from_s3 (client : Option S3Client)
    (bucket_name object_key save_path : String) : Except PyExc Bool :=
  match get_lora_attempt client bucket_name object_key save_path with
  | .ok _ => .ok true
  | .error _ => .ok false

/-- One call to `get_lora_from_s3` as recorded by the orchestrator's
trace: the bucket, key, and destination path passed at the call site. -/
structure FetchCall where
  bucket : String
  key : String
  destination : String
deriving DecidableEq, Repr

/-- `get_full_path_or_raise` (s3_utils.py lines 79-88): resolve locally;
if the file exists return its path, otherwise call `get_lora_from_s3` with
the resolved fallback path as destination, raising `FileNotFoundError`
naming the bucket and key when the fetch reports failure.  Returns the
result together with the resolver's probe trace and the list of fetch
calls made. -/
def get_full_path_or_raise (env : Env) (client : Option S3Client)
    (folder_name filename bucket_name object_key : String) :
    Except PyExc String × List Probe × List FetchCall :=
  match get_full_path_simulate env folder_name filename with
  | (.error e, ps) => (.error e, ps, [])
  | (.ok (full_path, exi), ps) =>
    if exi then
      (.ok full_path, ps, [])
    else
      match get_lora_from_s3 client bucket_name object_key full_path with
      | .ok true =>
        (.ok full_path, ps, [⟨bucket_name, object_key, full_path⟩])
      | .ok false =>
        (.error (.fetchFailed bucket_name object_key), ps,
          [⟨bucket_name, object_key, full_path⟩])
      | .error e => (.error e, ps, [⟨bucket_name, object_key, full_path⟩])

/-- The single-slot cache state of `LoraLoaderFallbackS3`: the
`self.loaded_lora` field, `None` (Empty) or a `(path, payload)` pair
(Holding). -/
def CacheState (α : Type) : Type := Option (String × α)

/-- The mismatch eviction of `load_lora` (s3_utils.py lines 131-137):
on a cached pair whose path differs from the request, the slot is set to
`None` and the old payload released before anything is loaded; on a hit or
an empty slot the state is unchanged. -/
def evictOnMismatch {α : Type} (st : CacheState α) (lora_path : String) :
    CacheState α :=
  match st with
  | some (p, w) => if p = lora_path then some (p, w) else none
  | none => none

/-- The cache logic of `LoraLoaderFallbackS3.load_lora` (s3_utils.py lines
130-141): after the mismatch eviction, a hit returns the cached payload
with no load; otherwise `load` (modelling `comfy.utils.load_torch_file`)
runs once and the slot holds the new pair.  Returns the payload served,
the new cache state, and the number of underlying load operations
performed (0 or 1). -/
def load_lora_step {α : Type} (load : String → α) (st : CacheState α)
    (lora_path : String) : α × CacheState α × Nat :=
  let st₁ := evictOnMismatch st lora_path
  match st₁ with
  | some (_, w) => (w, st₁, 0)
  | none =>
    let w := load lora_path
    (w, some (lora_path, w), 1)

/-- A sequence of `load_lora` invocations against one node instance,
threading the single-slot cache and summing the underlying load count. -/
def runRequests {α : Type} (load : String → α) :
    CacheState α → List String → CacheState α × Nat
  | st, [] => (st, 0)
  | st, p :: rest =>
    let (_, st₁, n) := load_lora_step load st p
    let (stf, m) := runRequests load st₁ rest
    (stf, n + m)

/-- A concrete environment: one category `loras` with the single search
folder `/models/loras`, no file or link anywhere on disk. -/
def envMissing : Env where
  folder_names_and_paths := fun c => if c = "loras" then some ["/models/loras"] else none
  map_legacy := id
  isfile := fun _ => false
  islink := fun _ => false
  path_exists := fun _ => false

/-- A concrete environment: `loras` → `/models/loras`, with
`/models/loras/x.safetensors` present as a regular file. -/
def envPresent : Env where
  folder_names_and_paths := fun c => if c = "loras" then some ["/models/loras"] else none
  map_legacy := id
  isfile := fun p => p == "/models/loras/x.safetensors"
  islink := fun _ => false
  path_exists := fun p => p == "/models/loras/x.safetensors"

/-- A concrete client whose metadata query and transfer both succeed. -/
def okClient : S3Client where
  head_object := fun _ _ => .ok 1024
  download_file := fun _ _ _ => .ok ()

/-- A concrete client whose metadata query raises (e.g. missing object). -/
def failClient : S3Client where
  head_object := fun _ _ => .error (.clientError "404 not found")
  download_file := fun _ _ _ => .ok ()

/-- Claim C4: a string containing the token `..` or the character `~`
anywhere makes `ensure_path_safety` raise `InvalidPath` naming that
string; a string containing neither is returned unchanged (and the
function is pure, so there is no side effect to speak of). -/
theorem C4_ensure_path_safety_spec (p : String) :
    ((['.', '.'] <:+: p.data ∨ ['~'] <:+: p.data) →
      ensure_path_safety p = .error (.invalidPath p)) ∧
    (¬(['.', '.'] <:+: p.data ∨ ['~'] <:+: p.data) →
      ensure_path_safety p = .ok p) := by
  unfold ensure_path_safety
  constructor
  · intro h
    have : (hasSubstr ['.', '.'] p.data || hasSubstr ['~'] p.data) = true := by
      rcases h with h | h
      · simp [hasSubstr_correct, h]
      · simp [hasSubstr_correct, h]
    simp [this]
  · intro h
    push_neg at h
    have h1 : hasSubstr ['.', '.'] p.data = false := by
      rw [← Bool.not_eq_true, hasSubstr_correct]; exact h.1
    have h2 : hasSubstr ['~'] p.data = false := by
      rw [← Bool.not_eq_true, hasSubstr_correct]; exact h.2
    simp [h1, h2]

theorem C4_ensure_path_safety_spec_witness :
    ensure_path_safety "a/../b" = .error (.invalidPath "a/../b") ∧
    ensure_path_safety "~/lora" = .error (.invalidPath "~/lora") ∧
    ensure_path_safety "loras/model.safetensors" = .ok "loras/model.safetensors" :=
  ⟨(C4_ensure_path_safety_spec "a/../b").1 (Or.inl (by decide)),
   (C4_ensure_path_safety_spec "~/lora").1 (Or.inr (by decide)),
   (C4_ensure_path_safety_spec "loras/model.safetensors").2 (by decide)⟩

/-- Claim C8: the remote fetcher never propagates an exception — for
every client behaviour and every input it returns an `ok` boolean, and
that boolean is `true` exactly when the transfer body (metadata query
followed by download) ran to successful completion. -/
theorem C8_fetcher_never_raises (client : Option S3Client)
    (bucket_name object_key save_path : String) :
    (∃ r : Bool, get_lora_from_s3 client bucket_name object_key save_path = .ok r) ∧
    (get_lora_from_s3 client bucket_name object_key save_path = .ok true ↔
      get_lora_attempt client bucket_name object_key save_path = .ok ()) := by
  unfold get_lora_from_s3
  cases h : get_lora_attempt client bucket_name object_key save_path with
  | ok u => cases u; simp
  | error e => simp

/-- Claim C1: with the module-level client (rebound to `None` on
s3_utils.py line 15), `get_lora_from_s3` returns `False` for every
bucket, key and destination, and consequently `get_full_path_or_raise`
raises `FetchFailed` on every locally-missing file. -/
theorem C1_null_client_always_fails (env : Env)
    (folder_name filename bucket_name object_key save_path fp : String)
    (ps : List Probe)
    (h : get_full_path_simulate env folder_name filename = (.ok (fp, false), ps)) :
    get_lora_from_s3 s3_client bucket_name object_key save_path = .ok false ∧
    (get_full_path_or_raise env s3_client folder_name filename
        bucket_name object_key).1 =
      .error (.fetchFailed bucket_name object_key) := by
  refine ⟨rfl, ?_⟩
  unfold get_full_path_or_raise
  rw [h]
  rfl

theorem C1_null_client_always_fails_witness :
    get_lora_from_s3 s3_client "bkt" "key" "/tmp/dst" = .ok false ∧
    (get_full_path_or_raise envMissing s3_client "loras" "x.safetensors"
        "bkt" "key").1 = .error (.fetchFailed "bkt" "key") :=
  C1_null_client_always_fails envMissing "loras" "x.safetensors" "bkt" "key"
    "/tmp/dst" "/models/loras/x.safetensors"
    [.isfileQ "/models/loras/x.safetensors", .islinkQ "/models/loras/x.safetensors",
     .isfileQ "/models/loras/x.safetensors"] (by decide)

/-- Claim C2: whenever local resolution reports the file missing, the
orchestrator makes exactly one fetch call, whose destination is the
resolved fallback path; a successful fetch makes it return that path, a
failed fetch makes it raise `FetchFailed` naming the bucket and key, and
in either case no further fetch call is made (the trace has length one). -/
theorem C2_exactly_one_fetch (env : Env) (client : Option S3Client)
    (folder_name filename bucket_name object_key fp : String) (ps : List Probe)
    (h : get_full_path_simulate env folder_name filename = (.ok (fp, false), ps)) :
    (get_full_path_or_raise env client folder_name filename
        bucket_name object_key).2.2 = [⟨bucket_name, object_key, fp⟩] ∧
    (get_lora_from_s3 client bucket_name object_key fp = .ok true →
      (get_full_path_or_raise env client folder_name filename
          bucket_name object_key).1 = .ok fp) ∧
    (get_lora_from_s3 client bucket_name object_key fp = .ok false →
      (get_full_path_or_raise env client folder_name filename
          bucket_name object_key).1 =
        .error (.fetchFailed bucket_name object_key)) := by
  unfold get_full_path_or_raise
  rw [h]
  cases hg : get_lora_from_s3 client bucket_name object_key fp with
  | error e => simp [hg]
  | ok b => cases b <;> simp [hg]

theorem C2_exactly_one_fetch_witness :
    (get_full_path_or_raise envMissing (some okClient) "loras" "x.safetensors"
        "bkt" "key").2.2 = [⟨"bkt", "key", "/models/loras/x.safetensors"⟩] ∧
    (get_full_path_or_raise envMissing (some okClient) "loras" "x.safetensors"
        "bkt" "key").1 = .ok "/models/loras/x.safetensors" ∧
    (get_full_path_or_raise envMissing (some failClient) "loras" "x.safetensors"
        "bkt" "key").1 = .error (.fetchFailed "bkt" "key") :=
  ⟨(C2_exactly_one_fetch envMissing (some okClient) "loras" "x.safetensors"
      "bkt" "key" "/models/loras/x.safetensors"
      [.isfileQ "/models/loras/x.safetensors", .islinkQ "/models/loras/x.safetensors",
       .isfileQ "/models/loras/x.safetensors"] (by decide)).1,
   (C2_exactly_one_fetch envMissing (some okClient) "loras" "x.safetensors"
      "bkt" "key" "/models/loras/x.safetensors"
      [.isfileQ "/models/loras/x.safetensors", .islinkQ "/models/loras/x.safetensors",
       .isfileQ "/models/loras/x.safetensors"] (by decide)).2.1 (by decide),
   (C2_exactly_one_fetch envMissing (some failClient) "loras" "x.safetensors"
      "bkt" "key" "/models/loras/x.safetensors"
      [.isfileQ "/models/loras/x.safetensors", .islinkQ "/models/loras/x.safetensors",
       .isfileQ "/models/loras/x.safetensors"] (by decide)).2.2 (by decide)⟩

/-- Claim C9: whenever local resolution reports the file present, the
orchestrator returns the resolved path at once and performs no remote
operation: its fetch-call trace is empty (a fortiori no metadata query,
since the only metadata query sits inside the fetcher). -/
theorem C9_local_hit_no_remote_call (env : Env) (client : Option S3Client)
    (folder_name filename bucket_name object_key fp : String) (ps : List Probe)
    (h : get_full_path_simulate env folder_name filename = (.ok (fp, true), ps)) :
    get_full_path_or_raise env client folder_name filename
        bucket_name object_key = (.ok fp, ps, []) := by
  unfold get_full_path_or_raise
  rw [h]
  simp

theorem C9_local_hit_no_remote_call_witness :
    get_full_path_or_raise envPresent (some okClient) "loras" "x.safetensors"
        "bkt" "key" =
      (.ok "/models/loras/x.safetensors", [.isfileQ "/models/loras/x.safetensors"], []) :=
  C9_local_hit_no_remote_call envPresent (some okClient) "loras" "x.safetensors"
    "bkt" "key" "/models/loras/x.safetensors"
    [.isfileQ "/models/loras/x.safetensors"] (by decide)

/-- Claim C10: a safe category name that is absent from the configured
search-directory mapping makes the resolver raise `CategoryNotFound`, with
an empty filesystem-probe trace: no existence or file-type check is
performed. -/
theorem C10_unknown_category_no_fs_access (env : Env)
    (folder_name filename : String)
    (hf : ensure_path_safety folder_name = .ok folder_name)
    (hn : ensure_path_safety filename = .ok filename)
    (hcat : env.folder_names_and_paths (env.map_legacy folder_name) = none) :
    get_full_path_simulate env folder_name filename =
      (.error (.categoryNotFound (env.map_legacy folder_name)), []) := by
  unfold get_full_path_simulate
  rw [hf, hn]
  simp [hcat]

theorem C10_unknown_category_no_fs_access_witness :
    get_full_path_simulate envMissing "checkpoints" "x.safetensors" =
      (.error (.categoryNotFound "checkpoints"), []) := by
  simpa [envMissing] using
    C10_unknown_category_no_fs_access envMissing "checkpoints" "x.safetensors"
      (by decide) (by decide) (by decide)

/-- When no configured folder holds the file, the search loop reports no
match (helper for the fallback claims). -/
theorem searchFolders_fst_eq_none (env : Env) (fn : String) :
    ∀ ds : List String, (∀ d ∈ ds, env.isfile (pathJoin d fn) = false) →
      (searchFolders env fn ds).1 = none := by
  intro ds
  induction ds with
  | nil => intro _; rfl
  | cons x rest ih =>
    intro h
    have hx : env.isfile (pathJoin x fn) = false := h x (by simp)
    have ih2 := ih (fun d hd => h d (by simp [hd]))
    cases hsf : searchFolders env fn rest with
    | mk r ps =>
      rw [hsf] at ih2
      simp [searchFolders, hx, hsf, ih2]

/-- A concrete environment with two search folders `/d1`, `/d2` for
`loras` and the file `x` present as a regular file in both. -/
def envBoth : Env where
  folder_names_and_paths := fun c => if c = "loras" then some ["/d1", "/d2"] else none
  map_legacy := id
  isfile := fun p => p == "/d1/x" || p == "/d2/x"
  islink := fun _ => false
  path_exists := fun p => p == "/d1/x" || p == "/d2/x"

/-- A concrete environment with two search folders where `/d1/x` is a
dangling symlink (islink true, isfile false) and `/d2/x` a regular file. -/
def envLinkSkip : Env where
  folder_names_and_paths := fun c => if c = "loras" then some ["/d1", "/d2"] else none
  map_legacy := id
  isfile := fun p => p == "/d2/x"
  islink := fun p => p == "/d1/x"
  path_exists := fun p => p == "/d2/x"

/-- Claim C5: with search directories `[D1, D2]` and the (safe) filename
present as a regular file in both, the resolver returns `D1`'s candidate
with `exists = true` and its probe trace shows the iteration stopped at
the first candidate (`D2` is never probed); and a first candidate that is
not a regular file — in particular a dangling symlink, whatever `islink`
reports — is skipped, the islink check is logged in the trace, and `D2`'s
regular file is returned. -/
theorem C5_first_directory_wins (env : Env) (cat fn D1 D2 : String)
    (hcat : ensure_path_safety cat = .ok cat)
    (hfn : ensure_path_safety fn = .ok fn)
    (hdirs : env.folder_names_and_paths (env.map_legacy cat) = some [D1, D2]) :
    (env.isfile (pathJoin D1 (normRel fn)) = true →
      env.isfile (pathJoin D2 (normRel fn)) = true →
      get_full_path_simulate env cat fn =
        (.ok (pathJoin D1 (normRel fn), true),
         [.isfileQ (pathJoin D1 (normRel fn))])) ∧
    (env.isfile (pathJoin D1 (normRel fn)) = false →
      env.isfile (pathJoin D2 (normRel fn)) = true →
      get_full_path_simulate env cat fn =
        (.ok (pathJoin D2 (normRel fn), true),
         [.isfileQ (pathJoin D1 (normRel fn)), .islinkQ (pathJoin D1 (normRel fn)),
          .isfileQ (pathJoin D2 (normRel fn))])) := by
  constructor
  · intro h1 _h2
    unfold get_full_path_simulate
    rw [hcat, hfn]
    simp [hdirs, searchFolders, h1]
  · intro h1 h2
    unfold get_full_path_simulate
    rw [hcat, hfn]
    simp [hdirs, searchFolders, h1, h2]

theorem C5_first_directory_wins_witness :
    get_full_path_simulate envBoth "loras" "x" =
      (.ok (pathJoin "/d1" (normRel "x"), true),
       [.isfileQ (pathJoin "/d1" (normRel "x"))]) ∧
    get_full_path_simulate envLinkSkip "loras" "x" =
      (.ok (pathJoin "/d2" (normRel "x"), true),
       [.isfileQ (pathJoin "/d1" (normRel "x")), .islinkQ (pathJoin "/d1" (normRel "x")),
        .isfileQ (pathJoin "/d2" (normRel "x"))]) :=
  ⟨(C5_first_directory_wins envBoth "loras" "x" "/d1" "/d2"
      (by decide) (by decide) (by decide)).1 (by decide) (by decide),
   (C5_first_directory_wins envLinkSkip "loras" "x" "/d1" "/d2"
      (by decide) (by decide) (by decide)).2 (by decide) (by decide)⟩

/-- Claim C6: with search directories `D1 :: rest` and a (safe) filename
that is a regular file under none of them (in particular not under `D1`,
so the fallback candidate is not an existing file), the resolver returns
the fallback `{path: D1 + normalized filename, exists: false}` anchored at
the first-listed directory. -/
theorem C6_fallback_anchored_at_first (env : Env) (cat fn D1 : String)
    (rest : List String)
    (hcat : ensure_path_safety cat = .ok cat)
    (hfn : ensure_path_safety fn = .ok fn)
    (hdirs : env.folder_names_and_paths (env.map_legacy cat) = some (D1 :: rest))
    (hmiss : ∀ d ∈ D1 :: rest, env.isfile (pathJoin d (normRel fn)) = false) :
    (get_full_path_simulate env cat fn).1 =
      .ok (pathJoin D1 (normRel fn), false) := by
  have hnone := searchFolders_fst_eq_none env (normRel fn) (D1 :: rest) hmiss
  have hD1 : env.isfile (pathJoin D1 (normRel fn)) = false := hmiss D1 (by simp)
  unfold get_full_path_simulate
  rw [hcat, hfn]
  cases hsf : searchFolders env (normRel fn) (D1 :: rest) with
  | mk r ps =>
    rw [hsf] at hnone
    simp only at hnone
    subst hnone
    simp [hdirs, hsf, hD1]

theorem C6_fallback_anchored_at_first_witness :
    (get_full_path_simulate envMissing "loras" "x.safetensors").1 =
      .ok (pathJoin "/models/loras" (normRel "x.safetensors"), false) :=
  C6_fallback_anchored_at_first envMissing "loras" "x.safetensors"
    "/models/loras" [] (by decide) (by decide) (by decide)
    (by intro d hd; rfl)

/-- A concrete environment where the fallback candidate
`/models/loras/subdir` exists on disk but is a directory, not a regular
file: `path_exists` is true for it while `isfile` and `islink` are false
everywhere. -/
def envDirFallback : Env where
  folder_names_and_paths := fun c => if c = "loras" then some ["/models/loras"] else none
  map_legacy := id
  isfile := fun _ => false
  islink := fun _ => false
  path_exists := fun p => p == "/models/loras/subdir"

/-- Claim C3 divergence evidence: when no candidate matched and the
computed fallback path exists but is not a regular file (here a
directory), the resolver does NOT raise the `ShouldNotHappen` error — it
returns `{path, exists: false}`, because the guard on s3_utils.py line 75
tests `os.path.isfile` (false for a directory) where the `RuntimeError`
message on line 77 (\x22exists but is not a file\x22) shows the intended
test was `os.path.exists`. -/
theorem C3_dir_fallback_returns_instead_of_raising :
    envDirFallback.path_exists (pathJoin "/models/loras" (normRel "subdir")) = true ∧
    envDirFallback.isfile (pathJoin "/models/loras" (normRel "subdir")) = false ∧
    (get_full_path_simulate envDirFallback "loras" "subdir").1 =
      .ok (pathJoin "/models/loras" (normRel "subdir"), false) :=
  ⟨by decide, by decide, by decide⟩

/-- Claim C7: the single-slot cache of `load_lora` is the two-state
machine Empty / Holding: two requests for the same path from an empty
slot perform exactly one underlying load; requests A, B, A (with A ≠ B)
perform three loads; the mismatch eviction empties the slot (releasing
the old payload) before the new entry is loaded; and a hit returns the
cached payload with zero loads, leaving the slot unchanged. -/
theorem C7_single_slot_cache {α : Type} (load : String → α) (A B p q : String)
    (w : α) (hAB : A ≠ B) (hqp : q ≠ p) :
    (runRequests load none [A, A]).2 = 1 ∧
    (runRequests load none [A, B, A]).2 = 3 ∧
    evictOnMismatch (some (p, w)) q = (none : CacheState α) ∧
    load_lora_step load (some (A, load A)) A = (load A, some (A, load A), 0) := by
  refine ⟨?_, ?_, ?_, ?_⟩
  · simp [runRequests, load_lora_step, evictOnMismatch]
  · simp [runRequests, load_lora_step, evictOnMismatch, hAB, Ne.symm hAB]
  · simp [evictOnMismatch, Ne.symm hqp]
  · simp [load_lora_step, evictOnMismatch]

theorem C7_single_slot_cache_witness :
    (runRequests (fun _ : String => (0 : Nat)) none ["a", "a"]).2 = 1 ∧
    (runRequests (fun _ : String => (0 : Nat)) none ["a", "b", "a"]).2 = 3 ∧
    evictOnMismatch (some ("p", (0 : Nat))) "q" = (none : CacheState Nat) ∧
    load_lora_step (fun _ : String => (0 : Nat)) (some ("a", 0)) "a" =
      (0, some ("a", 0), 0) :=
  C7_single_slot_cache (fun _ : String => (0 : Nat)) "a" "b" "p" "q" 0
    (by decide) (by decide)
